import Mathlib

/-!
Shallow embedding of the spatial/graph persistence core of the garden
tracker (src/app/models.py, src/database/model_adapter.py,
src/database/kuzu_manager.py), together with theorems settling the
frozen claims about its specification.

Numeric convention: the Python source stores coordinates as floats and
compares Euclidean distances `((dx)**2 + (dy)**2) ** 0.5 < r` against
nonnegative thresholds `r`.  The embedding works over `ℚ` and compares
squared distances against `r ^ 2`, which is equivalent for `0 ≤ r`
since squaring is monotone on nonnegative reals.

Python truthiness on optional fields (`if not cultivo.id`,
`if anotacion.cultivo_id`, ...) is embedded by explicit truthiness
functions: `none` and `some ""` are falsy for optional strings, `none`
and `some 0` are falsy for optional integers.
-/

/-- Truthiness of an optional Python string: None and the empty string
are falsy. -/
def pyTruthyStr : Option String → Bool
  | none => false
  | some s => decide (s ≠ "")

/-- Truthiness of an optional Python integer: None and 0 are falsy. -/
def pyTruthyInt : Option Int → Bool
  | none => false
  | some n => decide (n ≠ 0)

/-- A coordinate (x, y) on the garden map (models.py, class Coordenada). -/
structure Coordenada where
  x : ℚ
  y : ℚ
deriving DecidableEq

/-- Squared Euclidean distance between two coordinates.  The source
computes `((a.x - b.x) ** 2 + (a.y - b.y) ** 2) ** 0.5` and compares it
with a nonnegative radius; here the comparison is done on squares. -/
def dist2 (a b : Coordenada) : ℚ :=
  (a.x - b.x) ^ 2 + (a.y - b.y) ^ 2

/-- Annotation type tags (models.py, enum TipoAnotacion). -/
inductive TipoAnotacion where
  | evento | foto | nota | siembra | cosecha | riego | fertilizacion | poda
deriving DecidableEq

/-- Specificity levels (models.py, enum NivelEspecificidad). -/
inductive NivelEspecificidad where
  | tipo_planta | tiempo | individuo | estacion
deriving DecidableEq

/-- An annotation record (models.py, class Anotacion). -/
structure Anotacion where
  id : Option String
  tipo : TipoAnotacion
  nivel_especificidad : NivelEspecificidad
  fecha : String
  notas : Option String
  fotos : List String
  cultivo_id : Option String
  hortaliza_id : Option Int
  coordenadas : Option Coordenada
deriving DecidableEq

/-- A vegetable-type reference record (models.py, class Hortaliza). -/
structure Hortaliza where
  id : Int
  nombre : String
  descripcion : String
  ciclo_dias : Int
  siembra_mes_inicio : Int
  siembra_mes_fin : Int
  plagas_comunes : List String
  cuidados : List String
  tamano_promedio : ℚ
  distancia_min : ℚ
deriving DecidableEq

/-- A placed crop (models.py, class CultivoActivo). -/
structure CultivoActivo where
  id : Option String
  hortaliza_id : Int
  coordenadas : Coordenada
  fecha_siembra : String
  estado : String
deriving DecidableEq

/-- The in-memory domain model (models.py, class Huerta).  The fields
`poligonos`, `dimensiones` and `hortalizas_db` of the source class are
not read or written by any operation the claims mention and are
omitted; `kuzu_available` embeds the `_kuzu_available` flag. -/
structure Huerta where
  cultivos_activos : List CultivoActivo
  anotaciones : List Anotacion
  kuzu_available : Bool
deriving DecidableEq

/-- Collision check (models.py, `Huerta._verificar_colision`): true if
some stored crop lies at Euclidean distance strictly less than `radio`
from `coordenadas` (the source default for `radio` is 25; callers pass
it explicitly here). -/
def _verificar_colision (h : Huerta) (coordenadas : Coordenada) (radio : ℚ) : Bool :=
  h.cultivos_activos.any (fun cu => decide (dist2 cu.coordenadas coordenadas < radio ^ 2))

/-- Id assignment performed by `agregar_cultivo_activo`
(`if not cultivo.id: cultivo.id = f"cultivo_{len(...)+1}"`). -/
def asigna_id_cultivo (h : Huerta) (c : CultivoActivo) : CultivoActivo :=
  if pyTruthyStr c.id then c
  else { c with id := some ("cultivo_" ++ toString (h.cultivos_activos.length + 1)) }

/-- Place a crop (models.py, `Huerta.agregar_cultivo_activo`): raises
ValueError on collision before any mutation; otherwise assigns an id if
the crop has none, appends the crop, and returns its id.  The result
carries (return value or raised error, the crop object after the call,
the Huerta after the call).  The KuzuDB persistence step of the source
is wrapped in a try/except that never alters the in-memory state or
the return value, so it is not part of the in-memory semantics. -/
def agregar_cultivo_activo (h : Huerta) (cultivo : CultivoActivo) :
    Except String String × CultivoActivo × Huerta :=
  if _verificar_colision h cultivo.coordenadas 25 then
    (Except.error "Colision detectada: ya existe un cultivo en esta posicion", cultivo, h)
  else
    (Except.ok ((asigna_id_cultivo h cultivo).id.getD ""),
     asigna_id_cultivo h cultivo,
     { h with cultivos_activos := h.cultivos_activos ++ [asigna_id_cultivo h cultivo] })

/-- Crop lookup at a coordinate (models.py,
`Huerta.obtener_planta_en_coordenada`).  When the KuzuDB flag is set
the source first asks the adapter for a record and scans memory for a
crop with the returned id; a falsy result, an exception, or no memory
match falls through to the in-memory scan, which returns the first crop
at distance strictly less than 20.  `kuzuResult` embeds the outcome of
the adapter call: `none` for a falsy result or a raised-and-caught
exception, `some oid` for a record whose id field is `oid`. -/
def obtener_planta_en_coordenada (h : Huerta) (kuzuResult : Option (Option String))
    (x y : ℚ) : Option CultivoActivo :=
  match (if h.kuzu_available then
           match kuzuResult with
           | some oid => h.cultivos_activos.find? (fun cu => decide (cu.id = oid))
           | none => none
         else none) with
  | some cu => some cu
  | none =>
      h.cultivos_activos.find? (fun cu => decide (dist2 cu.coordenadas ⟨x, y⟩ < 20 ^ 2))

/-- Id assignment performed by `agregar_anotacion`
(`if not anotacion.id: anotacion.id = f"anotacion_{len(...)+1}"`). -/
def asigna_id_anotacion (h : Huerta) (a : Anotacion) : Anotacion :=
  if pyTruthyStr a.id then a
  else { a with id := some ("anotacion_" ++ toString (h.anotaciones.length + 1)) }

/-- Date auto-fill performed by `agregar_anotacion`
(`if not anotacion.fecha: anotacion.fecha = datetime.now().isoformat()`);
`now` stands for the wall-clock string. -/
def asigna_fecha (a : Anotacion) (now : String) : Anotacion :=
  if a.fecha = "" then { a with fecha := now } else a

/-- Add an annotation (models.py, `Huerta.agregar_anotacion`): assigns
an id and a date if absent, appends, and returns the id.  The result
carries (returned id, the record as stored, the Huerta after the call).
As with crops, the KuzuDB persistence step cannot alter the in-memory
state or the return value. -/
def agregar_anotacion (h : Huerta) (anotacion : Anotacion) (now : String) :
    String × Anotacion × Huerta :=
  ((asigna_fecha (asigna_id_anotacion h anotacion) now).id.getD "",
   asigna_fecha (asigna_id_anotacion h anotacion) now,
   { h with anotaciones := h.anotaciones ++ [asigna_fecha (asigna_id_anotacion h anotacion) now] })

/-- Crop-target query (models.py, `Huerta.obtener_anotaciones_por_cultivo`):
all stored records whose `cultivo_id` equals the queried id. -/
def obtener_anotaciones_por_cultivo (h : Huerta) (cultivo_id : String) : List Anotacion :=
  h.anotaciones.filter (fun a => decide (a.cultivo_id = some cultivo_id))

/-- Vegetable-type-target query (models.py,
`Huerta.obtener_anotaciones_por_tipo_planta`): all stored records at
the tipo_planta specificity level whose `hortaliza_id` equals the
queried id. -/
def obtener_anotaciones_por_tipo_planta (h : Huerta) (hortaliza_id : Int) : List Anotacion :=
  h.anotaciones.filter (fun a =>
    decide (a.nivel_especificidad = NivelEspecificidad.tipo_planta ∧
            a.hortaliza_id = some hortaliza_id))

/-- Ray-casting point-in-polygon test (kuzu_manager.py,
`KuzuDBManager._point_in_polygon`).  The source guard
`if not polygon or len(polygon) < 3: return False` covers None, the
empty list, and short lists; a None argument corresponds to the empty
list here.  The loop carries the `inside` flag and the previous index
`j`, starting at `n - 1`.  Rational division is total with `q / 0 = 0`,
which is harmless: the division is reachable in the source only when
the two vertex y-comparisons differ, which forces a nonzero
denominator. -/
def _point_in_polygon (x y : ℚ) (polygon : List (ℚ × ℚ)) : Bool :=
  if polygon.length < 3 then false
  else
    let n := polygon.length
    ((List.range n).foldl
      (fun (st : Bool × Nat) (i : Nat) =>
        let vi := polygon.getD i ((0 : ℚ), (0 : ℚ))
        let vj := polygon.getD st.2 ((0 : ℚ), (0 : ℚ))
        let cruza := (decide (vi.2 > y) != decide (vj.2 > y)) &&
          decide (x < (vj.1 - vi.1) * (y - vi.2) / (vj.2 - vi.2) + vi.1)
        ((if cruza then !st.1 else st.1), i))
      (false, n - 1)).1

/-- Claim C2: for every point (x, y) and every polygon argument that is
null/empty or has fewer than 3 vertices, `_point_in_polygon` returns
false. -/
theorem c2_point_in_polygon_degenerate_false (x y : ℚ) (polygon : List (ℚ × ℚ))
    (hlen : polygon.length < 3) : _point_in_polygon x y polygon = false := by
  simp [_point_in_polygon, hlen]

/-- Witness for C2 at the empty polygon and the point (5, 5). -/
theorem c2_point_in_polygon_degenerate_false_witness :
    ([] : List (ℚ × ℚ)).length < 3 ∧ _point_in_polygon 5 5 [] = false :=
  ⟨by decide, c2_point_in_polygon_degenerate_false 5 5 [] (by decide)⟩

/-- The collision flag holds exactly when some stored crop is strictly
closer than the radius. -/
theorem verificar_colision_iff (h : Huerta) (c : Coordenada) (r : ℚ) :
    _verificar_colision h c r = true ↔
      ∃ cu ∈ h.cultivos_activos, dist2 cu.coordenadas c < r ^ 2 := by
  simp [_verificar_colision]

/-- Id assignment keeps every field of the crop except possibly the id. -/
theorem asigna_id_cultivo_fields (h : Huerta) (c : CultivoActivo) :
    (asigna_id_cultivo h c).hortaliza_id = c.hortaliza_id ∧
    (asigna_id_cultivo h c).coordenadas = c.coordenadas ∧
    (asigna_id_cultivo h c).fecha_siembra = c.fecha_siembra ∧
    (asigna_id_cultivo h c).estado = c.estado := by
  by_cases hp : pyTruthyStr c.id = true <;> simp [asigna_id_cultivo, hp]

/-- After id assignment the crop always carries an id. -/
theorem asigna_id_cultivo_isSome (h : Huerta) (c : CultivoActivo) :
    (asigna_id_cultivo h c).id.isSome = true := by
  by_cases hp : pyTruthyStr c.id = true
  · cases hc : c.id with
    | none => rw [hc] at hp; simp [pyTruthyStr] at hp
    | some s => rw [hc] at hp; simp [asigna_id_cultivo, hc, hp]
  · simp [asigna_id_cultivo, hp]

/-- Claim C1: `agregar_cultivo_activo` raises the collision error iff
some stored crop lies strictly within the default collision radius 25
of the requested coordinate; when no such crop exists the call
succeeds, assigns an id if the crop has none, and appends the crop. -/
theorem c1_agregar_cultivo_colision_iff (h : Huerta) (c : CultivoActivo) :
    ((∃ cu ∈ h.cultivos_activos, dist2 cu.coordenadas c.coordenadas < 25 ^ 2) ↔
      ∃ msg, (agregar_cultivo_activo h c).1 = Except.error msg)
    ∧ ((∀ cu ∈ h.cultivos_activos, ¬ dist2 cu.coordenadas c.coordenadas < 25 ^ 2) →
        ∃ c2 : CultivoActivo,
          agregar_cultivo_activo h c =
            (Except.ok (c2.id.getD ""), c2,
             { h with cultivos_activos := h.cultivos_activos ++ [c2] })
          ∧ c2.id.isSome = true
          ∧ c2.hortaliza_id = c.hortaliza_id
          ∧ c2.coordenadas = c.coordenadas
          ∧ c2.fecha_siembra = c.fecha_siembra
          ∧ c2.estado = c.estado
          ∧ (pyTruthyStr c.id = true → c2 = c)) := by
  by_cases hcol : _verificar_colision h c.coordenadas 25 = true
  · refine ⟨⟨fun _ => ⟨"Colision detectada: ya existe un cultivo en esta posicion",
      by simp [agregar_cultivo_activo, hcol]⟩,
      fun _ => (verificar_colision_iff h c.coordenadas 25).mp hcol⟩, fun hno => ?_⟩
    obtain ⟨cu, hmem, hlt⟩ := (verificar_colision_iff h c.coordenadas 25).mp hcol
    exact absurd hlt (hno cu hmem)
  · have hcol2 : _verificar_colision h c.coordenadas 25 = false :=
      Bool.eq_false_iff.mpr hcol
    refine ⟨⟨fun hex => absurd ((verificar_colision_iff h c.coordenadas 25).mpr hex) hcol,
      fun hmsg => ?_⟩, fun _ => ?_⟩
    · obtain ⟨msg, hmsg⟩ := hmsg
      simp [agregar_cultivo_activo, hcol2] at hmsg
    · obtain ⟨h1, h2, h3, h4⟩ := asigna_id_cultivo_fields h c
      exact ⟨asigna_id_cultivo h c, by simp [agregar_cultivo_activo, hcol2],
        asigna_id_cultivo_isSome h c, h1, h2, h3, h4,
        fun hp => by simp [asigna_id_cultivo, hp]⟩

/-- Witness for C1: placing a crop at (100, 100) into an empty garden
succeeds and appends the crop with a generated id. -/
theorem c1_agregar_cultivo_colision_iff_witness :
    (∀ cu ∈ (⟨[], [], false⟩ : Huerta).cultivos_activos,
      ¬ dist2 cu.coordenadas
          (⟨none, 1, ⟨100, 100⟩, "2024-01-15", "activo"⟩ : CultivoActivo).coordenadas < 25 ^ 2)
    ∧ ∃ c2 : CultivoActivo,
        agregar_cultivo_activo (⟨[], [], false⟩ : Huerta)
            (⟨none, 1, ⟨100, 100⟩, "2024-01-15", "activo"⟩ : CultivoActivo) =
          (Except.ok (c2.id.getD ""), c2,
           { (⟨[], [], false⟩ : Huerta) with
              cultivos_activos := (⟨[], [], false⟩ : Huerta).cultivos_activos ++ [c2] })
        ∧ c2.id.isSome = true
        ∧ c2.hortaliza_id =
            (⟨none, 1, ⟨100, 100⟩, "2024-01-15", "activo"⟩ : CultivoActivo).hortaliza_id
        ∧ c2.coordenadas =
            (⟨none, 1, ⟨100, 100⟩, "2024-01-15", "activo"⟩ : CultivoActivo).coordenadas
        ∧ c2.fecha_siembra =
            (⟨none, 1, ⟨100, 100⟩, "2024-01-15", "activo"⟩ : CultivoActivo).fecha_siembra
        ∧ c2.estado = (⟨none, 1, ⟨100, 100⟩, "2024-01-15", "activo"⟩ : CultivoActivo).estado
        ∧ (pyTruthyStr (⟨none, 1, ⟨100, 100⟩, "2024-01-15", "activo"⟩ : CultivoActivo).id = true →
            c2 = ⟨none, 1, ⟨100, 100⟩, "2024-01-15", "activo"⟩) :=
  ⟨by simp, (c1_agregar_cultivo_colision_iff ⟨[], [], false⟩
      ⟨none, 1, ⟨100, 100⟩, "2024-01-15", "activo"⟩).2 (by simp)⟩

/-- Claim C10: `agregar_cultivo_activo` is atomic on failure: when the
collision error is raised, the crop list is unchanged, the submitted
crop is not appended, and no id is assigned to it. -/
theorem c10_agregar_cultivo_atomic_on_failure (h : Huerta) (c : CultivoActivo)
    (hcol : ∃ cu ∈ h.cultivos_activos, dist2 cu.coordenadas c.coordenadas < 25 ^ 2) :
    agregar_cultivo_activo h c =
      (Except.error "Colision detectada: ya existe un cultivo en esta posicion", c, h) := by
  have hb := (verificar_colision_iff h c.coordenadas 25).mpr hcol
  simp [agregar_cultivo_activo, hb]

/-- Witness for C10: a second crop 200 squared-units away from an
existing one (distance about 14.1 lt 25) is rejected and nothing changes. -/
theorem c10_agregar_cultivo_atomic_on_failure_witness :
    (∃ cu ∈ (⟨[⟨some "c1", 1, ⟨0, 0⟩, "2024-01-15", "activo"⟩], [], false⟩ : Huerta).cultivos_activos,
      dist2 cu.coordenadas
        (⟨none, 2, ⟨10, 10⟩, "2024-02-01", "activo"⟩ : CultivoActivo).coordenadas < 25 ^ 2)
    ∧ agregar_cultivo_activo
        (⟨[⟨some "c1", 1, ⟨0, 0⟩, "2024-01-15", "activo"⟩], [], false⟩ : Huerta)
        (⟨none, 2, ⟨10, 10⟩, "2024-02-01", "activo"⟩ : CultivoActivo) =
      (Except.error "Colision detectada: ya existe un cultivo en esta posicion",
       ⟨none, 2, ⟨10, 10⟩, "2024-02-01", "activo"⟩,
       ⟨[⟨some "c1", 1, ⟨0, 0⟩, "2024-01-15", "activo"⟩], [], false⟩) :=
  ⟨by norm_num [dist2], c10_agregar_cultivo_atomic_on_failure
      ⟨[⟨some "c1", 1, ⟨0, 0⟩, "2024-01-15", "activo"⟩], [], false⟩
      ⟨none, 2, ⟨10, 10⟩, "2024-02-01", "activo"⟩ (by norm_num [dist2])⟩

/-- A successful linear search returns a matching element and splits
the list at the first match. -/
theorem find?_eq_some_decomp {α : Type} (p : α → Bool) (l : List α) (a : α)
    (h : l.find? p = some a) :
    p a = true ∧ ∃ l1 l2, l = l1 ++ a :: l2 ∧ ∀ b ∈ l1, p b = false := by
  induction l with
  | nil => simp at h
  | cons b t ih =>
    by_cases hb : p b = true
    · rw [List.find?_cons_of_pos _ hb] at h
      obtain rfl : b = a := by injection h
      exact ⟨hb, [], t, rfl, by simp⟩
    · have hb2 : p b = false := Bool.eq_false_iff.mpr hb
      rw [List.find?_cons_of_neg _ hb] at h
      obtain ⟨hpa, l1, l2, heq, hall⟩ := ih h
      refine ⟨hpa, b :: l1, l2, by rw [heq, List.cons_append], fun e he => ?_⟩
      rcases List.mem_cons.mp he with rfl | he2
      · exact hb2
      · exact hall e he2

/-- A linear search over a list whose elements all fail the predicate,
extended by one matching element, returns that element. -/
theorem find?_append_singleton {α : Type} (p : α → Bool) (l : List α) (a : α)
    (hl : ∀ b ∈ l, p b = false) (ha : p a = true) :
    (l ++ [a]).find? p = some a := by
  induction l with
  | nil => rw [List.nil_append]; exact List.find?_cons_of_pos _ ha
  | cons b t ih =>
    have hb : p b = false := hl b (List.mem_cons_self b t)
    rw [List.cons_append, List.find?_cons_of_neg _ (by simp [hb])]
    exact ih (fun e he => hl e (List.mem_cons_of_mem b he))

/-- Claim C5: `obtener_planta_en_coordenada` returns none on an empty
domain model; with the store unavailable it is a linear scan returning
the first stored crop at squared distance below 20 squared of the
query, and none (never an error) when no crop is that close; and after
a successful `agregar_cultivo_activo` at a coordinate, querying that
exact coordinate returns the crop just stored. -/
theorem c5_obtener_planta_en_coordenada (h : Huerta) (kr : Option (Option String)) (x y : ℚ) :
    (h.cultivos_activos = [] → obtener_planta_en_coordenada h kr x y = none)
    ∧ (h.kuzu_available = false →
        ((obtener_planta_en_coordenada h kr x y = none ↔
            ∀ cu ∈ h.cultivos_activos, ¬ dist2 cu.coordenadas ⟨x, y⟩ < 20 ^ 2)
         ∧ ∀ cu, obtener_planta_en_coordenada h kr x y = some cu →
             dist2 cu.coordenadas ⟨x, y⟩ < 20 ^ 2 ∧
             ∃ l1 l2, h.cultivos_activos = l1 ++ cu :: l2 ∧
               ∀ e ∈ l1, ¬ dist2 e.coordenadas ⟨x, y⟩ < 20 ^ 2))
    ∧ (∀ (c c2 : CultivoActivo) (idv : String) (h2 : Huerta),
         h.kuzu_available = false → c.coordenadas = ⟨x, y⟩ →
         agregar_cultivo_activo h c = (Except.ok idv, c2, h2) →
         obtener_planta_en_coordenada h2 kr x y = some c2) := by
  refine ⟨?_, ?_, ?_⟩
  · intro he
    cases hk : h.kuzu_available <;> cases kr <;>
      simp [obtener_planta_en_coordenada, he, hk]
  · intro hk
    have hr : obtener_planta_en_coordenada h kr x y =
        h.cultivos_activos.find? (fun cu => decide (dist2 cu.coordenadas ⟨x, y⟩ < 20 ^ 2)) := by
      simp [obtener_planta_en_coordenada, hk]
    constructor
    · rw [hr, List.find?_eq_none]
      simp
    · intro cu hcu
      rw [hr] at hcu
      obtain ⟨hp, l1, l2, heq, hall⟩ := find?_eq_some_decomp _ _ _ hcu
      exact ⟨by simpa using hp, l1, l2, heq, fun e he => by simpa using hall e he⟩
  · intro c c2 idv h2 hk hco heq
    by_cases hcol : _verificar_colision h c.coordenadas 25 = true
    · simp [agregar_cultivo_activo, hcol] at heq
    · have hcol2 : _verificar_colision h c.coordenadas 25 = false := Bool.eq_false_iff.mpr hcol
      simp only [agregar_cultivo_activo, hcol2, Bool.false_eq_true, if_false,
        Prod.mk.injEq, Except.ok.injEq] at heq
      obtain ⟨-, rfl, rfl⟩ := heq
      have hfk : obtener_planta_en_coordenada
          { h with cultivos_activos := h.cultivos_activos ++ [asigna_id_cultivo h c] } kr x y =
          (h.cultivos_activos ++ [asigna_id_cultivo h c]).find?
            (fun cu => decide (dist2 cu.coordenadas ⟨x, y⟩ < 20 ^ 2)) := by
        simp [obtener_planta_en_coordenada, hk]
      rw [hfk]
      apply find?_append_singleton
      · intro b hb
        apply decide_eq_false
        intro hlt
        have hmem : dist2 b.coordenadas c.coordenadas < 25 ^ 2 := by
          rw [hco]
          exact lt_trans hlt (by norm_num)
        exact hcol ((verificar_colision_iff h c.coordenadas 25).mpr ⟨b, hb, hmem⟩)
      · apply decide_eq_true
        rw [(asigna_id_cultivo_fields h c).2.1, hco]
        norm_num [dist2]

/-- Witness for C5: the empty garden answers none at (100, 100); after
placing a crop there, the same query returns that crop. -/
theorem c5_obtener_planta_en_coordenada_witness :
    agregar_cultivo_activo (⟨[], [], false⟩ : Huerta)
        (⟨some "c1", 1, ⟨100, 100⟩, "2024-01-15", "activo"⟩ : CultivoActivo) =
      (Except.ok "c1", ⟨some "c1", 1, ⟨100, 100⟩, "2024-01-15", "activo"⟩,
       ⟨[⟨some "c1", 1, ⟨100, 100⟩, "2024-01-15", "activo"⟩], [], false⟩)
    ∧ obtener_planta_en_coordenada (⟨[], [], false⟩ : Huerta) none 100 100 = none
    ∧ obtener_planta_en_coordenada
        (⟨[⟨some "c1", 1, ⟨100, 100⟩, "2024-01-15", "activo"⟩], [], false⟩ : Huerta)
        none 100 100 =
      some ⟨some "c1", 1, ⟨100, 100⟩, "2024-01-15", "activo"⟩ :=
  ⟨rfl,
   (c5_obtener_planta_en_coordenada ⟨[], [], false⟩ none 100 100).1 rfl,
   (c5_obtener_planta_en_coordenada ⟨[], [], false⟩ none 100 100).2.2
     ⟨some "c1", 1, ⟨100, 100⟩, "2024-01-15", "activo"⟩
     ⟨some "c1", 1, ⟨100, 100⟩, "2024-01-15", "activo"⟩ "c1"
     ⟨[⟨some "c1", 1, ⟨100, 100⟩, "2024-01-15", "activo"⟩], [], false⟩
     rfl rfl rfl⟩

/-- Id assignment keeps the target fields of the record. -/
theorem asigna_id_anotacion_targets (h : Huerta) (a : Anotacion) :
    (asigna_id_anotacion h a).cultivo_id = a.cultivo_id ∧
    (asigna_id_anotacion h a).hortaliza_id = a.hortaliza_id := by
  by_cases hp : pyTruthyStr a.id = true <;> simp [asigna_id_anotacion, hp]

/-- Date auto-fill keeps the target fields of the record. -/
theorem asigna_fecha_targets (a : Anotacion) (now : String) :
    (asigna_fecha a now).cultivo_id = a.cultivo_id ∧
    (asigna_fecha a now).hortaliza_id = a.hortaliza_id := by
  by_cases hf : a.fecha = "" <;> simp [asigna_fecha, hf]

/-- An element failing the predicate is never in the filtered list. -/
theorem not_mem_filter_of_pred_false {α : Type} (p : α → Bool) (l : List α) (a : α)
    (hpa : p a = false) : a ∉ l.filter p := by
  intro hmem
  have hp := List.of_mem_filter hmem
  rw [hpa] at hp
  exact Bool.noConfusion hp

/-- Claim C9: a record added by `agregar_anotacion` with no crop id and
no vegetable-type id is never returned by the crop-target query or the
vegetable-type-target query for any queried id, while it is present in
the full in-memory list (the garden-level retrieval). -/
theorem c9_anotacion_sin_objetivo (h : Huerta) (a : Anotacion) (now : String)
    (hc : a.cultivo_id = none) (hh : a.hortaliza_id = none) :
    ∃ a2 h2, agregar_anotacion h a now = (a2.id.getD "", a2, h2)
      ∧ (∀ cid, a2 ∉ obtener_anotaciones_por_cultivo h2 cid)
      ∧ (∀ hid, a2 ∉ obtener_anotaciones_por_tipo_planta h2 hid)
      ∧ a2 ∈ h2.anotaciones := by
  refine ⟨asigna_fecha (asigna_id_anotacion h a) now,
    { h with anotaciones := h.anotaciones ++ [asigna_fecha (asigna_id_anotacion h a) now] },
    rfl, ?_, ?_, ?_⟩
  · intro cid
    apply not_mem_filter_of_pred_false
    rw [(asigna_fecha_targets (asigna_id_anotacion h a) now).1,
        (asigna_id_anotacion_targets h a).1, hc]
    simp
  · intro hid
    apply not_mem_filter_of_pred_false
    rw [decide_eq_false_iff_not]
    intro hand
    rw [(asigna_fecha_targets (asigna_id_anotacion h a) now).2,
        (asigna_id_anotacion_targets h a).2, hh] at hand
    exact Option.noConfusion hand.2
  · simp

/-- Witness for C9: an untargeted record added to the empty garden. -/
theorem c9_anotacion_sin_objetivo_witness :
    (⟨some "a1", TipoAnotacion.nota, NivelEspecificidad.individuo, "2024-01-01",
       none, [], none, none, none⟩ : Anotacion).cultivo_id = none
    ∧ (⟨some "a1", TipoAnotacion.nota, NivelEspecificidad.individuo, "2024-01-01",
         none, [], none, none, none⟩ : Anotacion).hortaliza_id = none
    ∧ ∃ a2 h2, agregar_anotacion (⟨[], [], false⟩ : Huerta)
          (⟨some "a1", TipoAnotacion.nota, NivelEspecificidad.individuo, "2024-01-01",
             none, [], none, none, none⟩ : Anotacion) "2024-01-01T00:00:00" =
          (a2.id.getD "", a2, h2)
        ∧ (∀ cid, a2 ∉ obtener_anotaciones_por_cultivo h2 cid)
        ∧ (∀ hid, a2 ∉ obtener_anotaciones_por_tipo_planta h2 hid)
        ∧ a2 ∈ h2.anotaciones :=
  ⟨rfl, rfl, c9_anotacion_sin_objetivo ⟨[], [], false⟩
      ⟨some "a1", TipoAnotacion.nota, NivelEspecificidad.individuo, "2024-01-01",
        none, [], none, none, none⟩ "2024-01-01T00:00:00" rfl rfl⟩

/-- A store query issued by the Synchronization Adapter
(model_adapter.py).  Each constructor stands for one of the literal
CREATE queries the adapter can execute; the MATCH-based edge queries
carry the parameters the adapter binds. -/
inductive KuzuCmd where
  | createPlantaNode (id : Option String)
  | isOfType (planta_id : Option String) (hortaliza_id : Int)
  | locatedIn (planta_id : Option String) (huerta_id : String)
  | createAnotacionNode (id : Option String)
  | annotatesPlanta (anotacion_id : Option String) (planta_id : Option String)
  | annotates (anotacion_id : Option String) (hortaliza_id : Option Int)
deriving DecidableEq

/-- Whether a command creates a relationship edge (as opposed to a node). -/
def KuzuCmd.isRelEdge : KuzuCmd → Bool
  | .isOfType _ _ => true
  | .locatedIn _ _ => true
  | .annotatesPlanta _ _ => true
  | .annotates _ _ => true
  | _ => false

/-- Observable store state for the adapter: the node ids the existence
checks can see, and the log of CREATE queries issued so far. -/
structure AdapterStore where
  plantaIds : List (Option String)
  anotacionIds : List (Option String)
  cmds : List KuzuCmd
deriving DecidableEq

/-- The try-block of `ModelAdapter.create_planta_in_kuzu` with
propagating errors: existence check, node creation, IS_OF_TYPE edge,
LOCATED_IN/CONTAINS edges.  `failAt n` tells whether the n-th
`execute_query` call of this invocation raises; an error carries the
store as it was when the exception was raised. -/
def create_planta_attempt (failAt : Nat → Bool) (s : AdapterStore) (c : CultivoActivo) :
    Except AdapterStore (Bool × AdapterStore) :=
  if failAt 0 then Except.error s
  else if c.id ∈ s.plantaIds then Except.ok (true, s)
  else if failAt 1 then Except.error s
  else
    let s1 := { s with plantaIds := s.plantaIds ++ [c.id],
                       cmds := s.cmds ++ [KuzuCmd.createPlantaNode c.id] }
    if failAt 2 then Except.error s1
    else
      let s2 := { s1 with cmds := s1.cmds ++ [KuzuCmd.isOfType c.id c.hortaliza_id] }
      if failAt 3 then Except.error s2
      else Except.ok (true, { s2 with cmds := s2.cmds ++ [KuzuCmd.locatedIn c.id "huerta_default"] })

/-- `ModelAdapter.create_planta_in_kuzu`: returns false when the store
is unavailable; otherwise runs the try-block and converts any raised
error into a false result (the except-clause). -/
def create_planta_in_kuzu (available : Bool) (failAt : Nat → Bool) (s : AdapterStore)
    (c : CultivoActivo) : Bool × AdapterStore :=
  if available then
    match create_planta_attempt failAt s c with
    | Except.ok r => r
    | Except.error s2 => (false, s2)
  else (false, s)

/-- The try-block of `ModelAdapter.create_anotacion_in_kuzu` with
propagating errors: existence check, node creation, then at most one
edge query chosen by Python truthiness of the target fields; when
neither target is truthy no edge query is issued. -/
def create_anotacion_attempt (failAt : Nat → Bool) (s : AdapterStore) (a : Anotacion) :
    Except AdapterStore (Bool × AdapterStore) :=
  if failAt 0 then Except.error s
  else if a.id ∈ s.anotacionIds then Except.ok (true, s)
  else if failAt 1 then Except.error s
  else
    let s1 := { s with anotacionIds := s.anotacionIds ++ [a.id],
                       cmds := s.cmds ++ [KuzuCmd.createAnotacionNode a.id] }
    if pyTruthyStr a.cultivo_id then
      if failAt 2 then Except.error s1
      else Except.ok (true, { s1 with cmds := s1.cmds ++ [KuzuCmd.annotatesPlanta a.id a.cultivo_id] })
    else if pyTruthyInt a.hortaliza_id then
      if failAt 2 then Except.error s1
      else Except.ok (true, { s1 with cmds := s1.cmds ++ [KuzuCmd.annotates a.id a.hortaliza_id] })
    else Except.ok (true, s1)

/-- `ModelAdapter.create_anotacion_in_kuzu`: returns false when the
store is unavailable; otherwise runs the try-block and converts any
raised error into a false result (the except-clause). -/
def create_anotacion_in_kuzu (available : Bool) (failAt : Nat → Bool) (s : AdapterStore)
    (a : Anotacion) : Bool × AdapterStore :=
  if available then
    match create_anotacion_attempt failAt s a with
    | Except.ok r => r
    | Except.error s2 => (false, s2)
  else (false, s)

/-- Claim C3: the adapter write operations never propagate an error:
with the store unavailable both return false and leave the store
untouched, and whenever the try-block raises (at any call, in any store
state) the except-clause converts the error into a false boolean
result.  In particular both functions are total with codomain
`Bool × AdapterStore`, so no exception reaches the Domain Model. -/
theorem c3_adapter_best_effort (available : Bool) (failAt : Nat → Bool)
    (s : AdapterStore) (c : CultivoActivo) (a : Anotacion) :
    (available = false →
      create_planta_in_kuzu available failAt s c = (false, s) ∧
      create_anotacion_in_kuzu available failAt s a = (false, s))
    ∧ (∀ s2, create_planta_attempt failAt s c = Except.error s2 →
        create_planta_in_kuzu true failAt s c = (false, s2))
    ∧ (∀ s2, create_anotacion_attempt failAt s a = Except.error s2 →
        create_anotacion_in_kuzu true failAt s a = (false, s2)) := by
  refine ⟨fun hav => ?_, fun s2 he => ?_, fun s2 he => ?_⟩
  · subst hav
    exact ⟨rfl, rfl⟩
  · simp [create_planta_in_kuzu, he]
  · simp [create_anotacion_in_kuzu, he]

/-- Witness for C3: an unavailable store yields false, and a raising
first store call also yields false instead of an error. -/
theorem c3_adapter_best_effort_witness :
    (create_planta_in_kuzu false (fun _ => true) ⟨[], [], []⟩
        (⟨some "c1", 1, ⟨0, 0⟩, "2024-01-15", "activo"⟩ : CultivoActivo) = (false, ⟨[], [], []⟩)
     ∧ create_anotacion_in_kuzu false (fun _ => true) ⟨[], [], []⟩
        (⟨some "a1", TipoAnotacion.nota, NivelEspecificidad.individuo, "2024-01-01",
           none, [], none, none, none⟩ : Anotacion) = (false, ⟨[], [], []⟩))
    ∧ create_planta_in_kuzu true (fun _ => true) ⟨[], [], []⟩
        (⟨some "c1", 1, ⟨0, 0⟩, "2024-01-15", "activo"⟩ : CultivoActivo) = (false, ⟨[], [], []⟩)
    ∧ create_anotacion_in_kuzu true (fun _ => true) ⟨[], [], []⟩
        (⟨some "a1", TipoAnotacion.nota, NivelEspecificidad.individuo, "2024-01-01",
           none, [], none, none, none⟩ : Anotacion) = (false, ⟨[], [], []⟩) :=
  ⟨(c3_adapter_best_effort false (fun _ => true) ⟨[], [], []⟩
      ⟨some "c1", 1, ⟨0, 0⟩, "2024-01-15", "activo"⟩
      ⟨some "a1", TipoAnotacion.nota, NivelEspecificidad.individuo, "2024-01-01",
        none, [], none, none, none⟩).1 rfl,
   (c3_adapter_best_effort false (fun _ => true) ⟨[], [], []⟩
      ⟨some "c1", 1, ⟨0, 0⟩, "2024-01-15", "activo"⟩
      ⟨some "a1", TipoAnotacion.nota, NivelEspecificidad.individuo, "2024-01-01",
        none, [], none, none, none⟩).2.1 ⟨[], [], []⟩ rfl,
   (c3_adapter_best_effort false (fun _ => true) ⟨[], [], []⟩
      ⟨some "c1", 1, ⟨0, 0⟩, "2024-01-15", "activo"⟩
      ⟨some "a1", TipoAnotacion.nota, NivelEspecificidad.individuo, "2024-01-01",
        none, [], none, none, none⟩).2.2 ⟨[], [], []⟩ rfl⟩

/-- Counterexample to claim C6: a fresh record with no crop id and no
vegetable-type id produces the node-creation query and no relationship
edge at all (the source has no garden-target edge branch in
`create_anotacion_in_kuzu`), contradicting "exactly one relationship
edge ... a garden-target edge when neither is set". -/
theorem c6_crear_anotacion_counterexample :
    ((create_anotacion_in_kuzu true (fun _ => false) ⟨[], [], []⟩
        (⟨some "a1", TipoAnotacion.nota, NivelEspecificidad.individuo, "2024-01-01",
           none, [], none, none, none⟩ : Anotacion)).2.cmds.filter KuzuCmd.isRelEdge) = []
    ∧ (create_anotacion_in_kuzu true (fun _ => false) ⟨[], [], []⟩
        (⟨some "a1", TipoAnotacion.nota, NivelEspecificidad.individuo, "2024-01-01",
           none, [], none, none, none⟩ : Anotacion)).2.cmds =
      [KuzuCmd.createAnotacionNode (some "a1")] :=
  ⟨rfl, rfl⟩

/-- Claim C6 (amended): for every record whose id is not already in the
store, when every store call succeeds, `create_anotacion_in_kuzu`
creates the node and at most one relationship edge with a distinct
label per target kind: a crop-target (ANNOTATES_PLANTA) edge when the
crop id is truthy, a vegetable-type-target (ANNOTATES) edge when the
crop id is not truthy and the vegetable-type id is truthy, and no edge
at all when neither target is truthy. -/
theorem c6_crear_anotacion_edges (failAt : Nat → Bool) (s : AdapterStore) (a : Anotacion)
    (hfail : ∀ n, failAt n = false) (hnew : a.id ∉ s.anotacionIds) :
    ∃ s2, create_anotacion_in_kuzu true failAt s a = (true, s2)
      ∧ (pyTruthyStr a.cultivo_id = true →
          s2.cmds = s.cmds ++ [KuzuCmd.createAnotacionNode a.id,
                               KuzuCmd.annotatesPlanta a.id a.cultivo_id])
      ∧ (pyTruthyStr a.cultivo_id = false → pyTruthyInt a.hortaliza_id = true →
          s2.cmds = s.cmds ++ [KuzuCmd.createAnotacionNode a.id,
                               KuzuCmd.annotates a.id a.hortaliza_id])
      ∧ (pyTruthyStr a.cultivo_id = false → pyTruthyInt a.hortaliza_id = false →
          s2.cmds = s.cmds ++ [KuzuCmd.createAnotacionNode a.id]) := by
  have h0 := hfail 0
  have h1 := hfail 1
  have h2 := hfail 2
  by_cases hcu : pyTruthyStr a.cultivo_id = true
  · refine ⟨AdapterStore.mk s.plantaIds (s.anotacionIds ++ [a.id])
        (s.cmds ++ [KuzuCmd.createAnotacionNode a.id,
                    KuzuCmd.annotatesPlanta a.id a.cultivo_id]),
      by simp [create_anotacion_in_kuzu, create_anotacion_attempt, h0, h1, h2, hnew, hcu],
      fun _ => rfl, fun hf => ?_, fun hf _ => ?_⟩ <;>
    · rw [hf] at hcu
      exact (Bool.false_ne_true hcu).elim
  · have hcu2 : pyTruthyStr a.cultivo_id = false := Bool.eq_false_iff.mpr hcu
    by_cases hho : pyTruthyInt a.hortaliza_id = true
    · refine ⟨AdapterStore.mk s.plantaIds (s.anotacionIds ++ [a.id])
          (s.cmds ++ [KuzuCmd.createAnotacionNode a.id,
                      KuzuCmd.annotates a.id a.hortaliza_id]),
        by simp [create_anotacion_in_kuzu, create_anotacion_attempt, h0, h1, h2,
          hnew, hcu2, hho],
        fun hf => ?_, fun _ _ => rfl, fun _ hf => ?_⟩
      · rw [hf] at hcu2
        exact (Bool.false_ne_true hcu2.symm).elim
      · rw [hf] at hho
        exact (Bool.false_ne_true hho).elim
    · have hho2 : pyTruthyInt a.hortaliza_id = false := Bool.eq_false_iff.mpr hho
      refine ⟨AdapterStore.mk s.plantaIds (s.anotacionIds ++ [a.id])
          (s.cmds ++ [KuzuCmd.createAnotacionNode a.id]),
        by simp [create_anotacion_in_kuzu, create_anotacion_attempt, h0, h1, h2,
          hnew, hcu2, hho2],
        fun hf => ?_, fun _ hf => ?_, fun _ _ => rfl⟩
      · rw [hf] at hcu2
        exact (Bool.false_ne_true hcu2.symm).elim
      · rw [hf] at hho2
        exact (Bool.false_ne_true hho2.symm).elim

/-- Witness for C6 (amended): a fresh crop-targeted record creates the
node followed by exactly the crop-target edge. -/
theorem c6_crear_anotacion_edges_witness :
    (∀ n : Nat, (fun _ : Nat => false) n = false)
    ∧ ((some "a2" : Option String) ∉ (⟨[], [], []⟩ : AdapterStore).anotacionIds)
    ∧ ∃ s2, create_anotacion_in_kuzu true (fun _ => false) ⟨[], [], []⟩
          (⟨some "a2", TipoAnotacion.nota, NivelEspecificidad.individuo, "2024-01-02",
             none, [], some "c1", none, none⟩ : Anotacion) = (true, s2)
        ∧ (pyTruthyStr (some "c1" : Option String) = true →
            s2.cmds = ([] : List KuzuCmd) ++ [KuzuCmd.createAnotacionNode (some "a2"),
                                 KuzuCmd.annotatesPlanta (some "a2") (some "c1")])
        ∧ (pyTruthyStr (some "c1" : Option String) = false →
            pyTruthyInt (none : Option Int) = true →
            s2.cmds = ([] : List KuzuCmd) ++ [KuzuCmd.createAnotacionNode (some "a2"),
                                 KuzuCmd.annotates (some "a2") none])
        ∧ (pyTruthyStr (some "c1" : Option String) = false →
            pyTruthyInt (none : Option Int) = false →
            s2.cmds = ([] : List KuzuCmd) ++ [KuzuCmd.createAnotacionNode (some "a2")]) :=
  ⟨fun _ => rfl, by simp,
   c6_crear_anotacion_edges (fun _ => false) ⟨[], [], []⟩
     ⟨some "a2", TipoAnotacion.nota, NivelEspecificidad.individuo, "2024-01-02",
       none, [], some "c1", none, none⟩ (fun _ => rfl) (by simp)⟩

/-- One iteration of `ModelAdapter.migrate_hortalizas_to_kuzu`: the
per-id existence check (`MATCH (h:Hortaliza {id}) ... LIMIT 1`) guards
the CREATE, so the node id is appended only when absent.  The store is
abstracted to the list of Hortaliza node ids it holds. -/
def migrate_step (store : List Int) (hortaliza : Hortaliza) : List Int :=
  if hortaliza.id ∈ store then store else store ++ [hortaliza.id]

/-- `ModelAdapter.migrate_hortalizas_to_kuzu` on the success path: the
loop over the vegetable-type collection (`hortalizas.values()`),
guarding each creation by the existence check. -/
def migrate_hortalizas_to_kuzu (store : List Int) (hortalizas : List Hortaliza) : List Int :=
  hortalizas.foldl migrate_step store

/-- A migration step never removes ids from the store. -/
theorem migrate_step_mem (store : List Int) (h : Hortaliza) (x : Int) (hx : x ∈ store) :
    x ∈ migrate_step store h := by
  by_cases hm : h.id ∈ store <;> simp [migrate_step, hm, hx]

/-- After a migration step the processed id is in the store. -/
theorem migrate_step_id_mem (store : List Int) (h : Hortaliza) :
    h.id ∈ migrate_step store h := by
  by_cases hm : h.id ∈ store <;> simp [migrate_step, hm]

/-- Migration never removes ids from the store. -/
theorem migrate_mem (store : List Int) (hs : List Hortaliza) (x : Int) (hx : x ∈ store) :
    x ∈ migrate_hortalizas_to_kuzu store hs := by
  induction hs generalizing store with
  | nil => exact hx
  | cons b t ih => exact ih (migrate_step store b) (migrate_step_mem store b x hx)

/-- After migration every processed vegetable-type id is in the store. -/
theorem migrate_id_mem (store : List Int) (hs : List Hortaliza) (h : Hortaliza)
    (hh : h ∈ hs) : h.id ∈ migrate_hortalizas_to_kuzu store hs := by
  induction hs generalizing store with
  | nil => cases hh
  | cons b t ih =>
    rcases List.mem_cons.mp hh with rfl | hmem
    · exact migrate_mem (migrate_step store h) t h.id (migrate_step_id_mem store h)
    · exact ih (migrate_step store b) hmem

/-- When every processed id is already present, migration is the
identity on the store. -/
theorem migrate_eq_of_all_mem (store : List Int) (hs : List Hortaliza)
    (hall : ∀ h ∈ hs, h.id ∈ store) : migrate_hortalizas_to_kuzu store hs = store := by
  induction hs generalizing store with
  | nil => rfl
  | cons b t ih =>
    have hb : b.id ∈ store := hall b (List.mem_cons_self b t)
    have hstep : migrate_step store b = store := by simp [migrate_step, hb]
    show migrate_hortalizas_to_kuzu (migrate_step store b) t = store
    rw [hstep]
    exact ih store (fun h hh => hall h (List.mem_cons_of_mem b hh))

/-- A migration step keeps the per-id node count at most
`max 1 (previous count)`. -/
theorem count_migrate_step_le (store : List Int) (h : Hortaliza) (x : Int) :
    List.count x (migrate_step store h) ≤ max 1 (List.count x store) := by
  by_cases hm : h.id ∈ store
  · simp only [migrate_step, hm, if_true]
    exact le_max_right _ _
  · simp only [migrate_step, hm, if_false]
    rw [List.count_append]
    by_cases hx : x = h.id
    · subst hx
      have h0 : List.count h.id store = 0 := List.count_eq_zero.mpr hm
      simp [h0]
    · have h1 : List.count x [h.id] = 0 := List.count_eq_zero.mpr (by simp [hx])
      rw [h1]
      simp

/-- Migration keeps the per-id node count at most
`max 1 (initial count)`. -/
theorem count_migrate_le (store : List Int) (hs : List Hortaliza) (x : Int) :
    List.count x (migrate_hortalizas_to_kuzu store hs) ≤ max 1 (List.count x store) := by
  induction hs generalizing store with
  | nil => exact le_max_right _ _
  | cons b t ih =>
    calc List.count x (migrate_hortalizas_to_kuzu (migrate_step store b) t)
        ≤ max 1 (List.count x (migrate_step store b)) := ih (migrate_step store b)
      _ ≤ max 1 (max 1 (List.count x store)) :=
          max_le_max le_rfl (count_migrate_step_le store b x)
      _ = max 1 (List.count x store) := by rw [← max_assoc, max_self]

/-- Claim C8: `migrate_hortalizas_to_kuzu` is idempotent: a second run
over the same vegetable-type set leaves the store unchanged, and the
per-id existence check keeps the per-id node count at most one (from
any store holding at most one node per id). -/
theorem c8_migrate_idempotente (store : List Int) (hortalizas : List Hortaliza) :
    migrate_hortalizas_to_kuzu (migrate_hortalizas_to_kuzu store hortalizas) hortalizas =
      migrate_hortalizas_to_kuzu store hortalizas
    ∧ ∀ x : Int, List.count x store ≤ 1 →
        List.count x (migrate_hortalizas_to_kuzu store hortalizas) ≤ 1 ∧
        List.count x (migrate_hortalizas_to_kuzu
          (migrate_hortalizas_to_kuzu store hortalizas) hortalizas) ≤ 1 := by
  have hid : migrate_hortalizas_to_kuzu (migrate_hortalizas_to_kuzu store hortalizas)
      hortalizas = migrate_hortalizas_to_kuzu store hortalizas :=
    migrate_eq_of_all_mem _ _ (fun h hh => migrate_id_mem store hortalizas h hh)
  refine ⟨hid, fun x hx => ?_⟩
  have h1 : List.count x (migrate_hortalizas_to_kuzu store hortalizas) ≤ 1 :=
    le_trans (count_migrate_le store hortalizas x) (max_le le_rfl hx)
  exact ⟨h1, by rw [hid]; exact h1⟩

/-- Witness for C8: migrating one vegetable type into the empty store
twice keeps a single node for its id. -/
theorem c8_migrate_idempotente_witness :
    List.count (1 : Int) ([] : List Int) ≤ 1
    ∧ (List.count (1 : Int) (migrate_hortalizas_to_kuzu []
          [⟨1, "Tomate", "Solanum lycopersicum", 120, 9, 11, [], [], 1, 1⟩]) ≤ 1
       ∧ List.count (1 : Int) (migrate_hortalizas_to_kuzu
          (migrate_hortalizas_to_kuzu []
            [⟨1, "Tomate", "Solanum lycopersicum", 120, 9, 11, [], [], 1, 1⟩])
          [⟨1, "Tomate", "Solanum lycopersicum", 120, 9, 11, [], [], 1, 1⟩]) ≤ 1) :=
  ⟨by decide,
   (c8_migrate_idempotente []
     [⟨1, "Tomate", "Solanum lycopersicum", 120, 9, 11, [], [], 1, 1⟩]).2 1 (by decide)⟩

/-- An opaque query-parameter value (the values the adapter binds:
strings, integers, floats, string lists). -/
inductive PVal where
  | str (v : String)
  | int (v : Int)
  | rat (v : ℚ)
  | strs (v : List String)
deriving DecidableEq

/-- A parameter map as passed to `execute_query`. -/
abbrev QueryParams := List (String × PVal)

/-- Environment for `KuzuDBManager.execute_query`: `available` is the
result of `is_available()`, `connectOk` tells whether `connect()`
yields a connection, and `run` is the outcome of `conn.execute` on the
given query and parameters (a cursor handle or a raised error). -/
structure QueryEnv where
  available : Bool
  connectOk : Bool
  run : String → QueryParams → Except String Nat

/-- `KuzuDBManager.execute_query`: returns None when the store is
unavailable or no connection can be made; otherwise executes on the
supplied connection (if any) or a fresh one, and re-raises any
execution error after logging (the final close in the source does not
change the result). -/
def execute_query (env : QueryEnv) (query : String) (parameters : QueryParams)
    (connection : Option Nat) : Except String (Option Nat) :=
  if env.available then
    match (match connection with
           | some c => some c
           | none => if env.connectOk then some 0 else none) with
    | none => Except.ok none
    | some _ =>
        match env.run query parameters with
        | Except.ok cur => Except.ok (some cur)
        | Except.error e => Except.error e
  else Except.ok none

/-- Claim C4: with the store unavailable `execute_query` returns None
rather than raising; with the store available and a connection in hand,
a failing execution is re-raised to the caller unchanged. -/
theorem c4_execute_query_errors (env : QueryEnv) (query : String)
    (parameters : QueryParams) (connection : Option Nat) :
    (env.available = false →
      execute_query env query parameters connection = Except.ok none)
    ∧ (∀ e, env.available = true →
        (connection.isSome = true ∨ env.connectOk = true) →
        env.run query parameters = Except.error e →
        execute_query env query parameters connection = Except.error e) := by
  constructor
  · intro hav
    simp [execute_query, hav]
  · intro e hav hconn hrun
    rcases connection with _ | c
    · rcases hconn with hc | hc
      · simp at hc
      · simp [execute_query, hav, hc, hrun]
    · simp [execute_query, hav, hrun]

/-- Witness for C4: an unavailable store answers None; an available
store whose execution raises propagates that error. -/
theorem c4_execute_query_errors_witness :
    (QueryEnv.mk false false (fun _ _ => Except.ok 0)).available = false
    ∧ execute_query (QueryEnv.mk false false (fun _ _ => Except.ok 0))
        "MATCH (n) RETURN n" [] none = Except.ok none
    ∧ (QueryEnv.mk true true (fun _ _ => Except.error "Binder exception")).run
        "MATCH (n) RETURN n" [] = Except.error "Binder exception"
    ∧ execute_query (QueryEnv.mk true true (fun _ _ => Except.error "Binder exception"))
        "MATCH (n) RETURN n" [] none = Except.error "Binder exception" :=
  ⟨rfl,
   (c4_execute_query_errors (QueryEnv.mk false false (fun _ _ => Except.ok 0))
     "MATCH (n) RETURN n" [] none).1 rfl,
   rfl,
   (c4_execute_query_errors (QueryEnv.mk true true (fun _ _ => Except.error "Binder exception"))
     "MATCH (n) RETURN n" [] none).2 "Binder exception" rfl (Or.inr rfl) rfl⟩

/-- Environment for `KuzuDBManager.initialize_schema`: store
availability, whether a connection is in hand, whether the schema file
`database/schemas/garden_schema.sql` exists and its text, whether
executing a given statement raises (such failures are logged and
skipped), and whether the post-creation validation probe for a given
node kind fails. -/
structure SchemaEnv where
  available : Bool
  connOk : Bool
  fileExists : Bool
  fileContent : String
  execFails : String → Bool
  tableMissing : String → Bool

/-- Statement splitting of `initialize_schema`: split the schema text
on semicolons, strip each chunk, drop empty chunks, inside each chunk
keep only nonempty lines not starting with a comment marker, and keep
the rejoined chunk when nonempty. -/
def split_schema_commands (content : String) : List String :=
  (content.splitOn ";").filterMap (fun cmd =>
    let cmdT := cmd.trim
    if cmdT = "" then none
    else
      let lines := (cmdT.splitOn "\n").filterMap (fun line =>
        let lineT := line.trim
        if lineT ≠ "" ∧ ¬ lineT.startsWith "--" then some lineT else none)
      if lines.isEmpty then none
      else
        let clean := String.intercalate "\n" lines
        if clean = "" then none else some clean)

/-- The node kinds probed by the validation queries of
`initialize_schema`. -/
def expected_tables : List String :=
  ["Hortaliza", "Planta", "Huerta", "Anotation", "Estructura"]

/-- `KuzuDBManager.initialize_schema`: returns False when the store is
unavailable or no connection can be made; executes a bare `return`
(i.e. Python None, embedded as `none`) when the schema file is missing;
otherwise splits the file into statements, attempts each independently
(a failing statement is skipped, recorded here in the second component
as (statement, success)), probes the expected node kinds, and returns
False when any probe fails, True otherwise. -/
def initialize_schema (env : SchemaEnv) : Option Bool × List (String × Bool) :=
  if env.available then
    if env.connOk then
      if env.fileExists then
        let commands := split_schema_commands env.fileContent
        let executed := commands.map (fun cmd => (cmd, ! env.execFails cmd))
        let failed_tables := expected_tables.filter env.tableMissing
        if failed_tables.isEmpty then (some true, executed) else (some false, executed)
      else (none, [])
    else (some false, [])
  else (some false, [])

/-- `KuzuDBManager._initialize_schema_with_connection`: identical to
`initialize_schema` except that the missing-schema-file branch returns
False instead of falling off with a bare `return`. -/
def _initialize_schema_with_connection (env : SchemaEnv) : Option Bool × List (String × Bool) :=
  if env.available then
    if env.connOk then
      if env.fileExists then
        let commands := split_schema_commands env.fileContent
        let executed := commands.map (fun cmd => (cmd, ! env.execFails cmd))
        let failed_tables := expected_tables.filter env.tableMissing
        if failed_tables.isEmpty then (some true, executed) else (some false, executed)
      else (some false, [])
    else (some false, [])
  else (some false, [])

/-- Claim C7 fails on the code: with the store available and a
connection in hand but the schema file missing, `initialize_schema`
returns None (Python falls off a bare `return`), not a boolean, while
the sibling `_initialize_schema_with_connection` returns False at the
same input; when instead the file exists and a validation probe fails,
`initialize_schema` does return False as the claim says. -/
theorem c7_initialize_schema_missing_file_returns_none :
    (initialize_schema
        (SchemaEnv.mk true true false "" (fun _ => false) (fun _ => false))).1 = none
    ∧ (_initialize_schema_with_connection
        (SchemaEnv.mk true true false "" (fun _ => false) (fun _ => false))).1 = some false
    ∧ (initialize_schema
        (SchemaEnv.mk true true true "CREATE NODE TABLE Hortaliza(id INT64)"
          (fun _ => false) (fun t => decide (t = "Planta")))).1 = some false :=
  ⟨rfl, rfl, rfl⟩
